import Mathlib

/- Verification of the stream adapter layer of webtransport-quinn
   (src/webtransport-quinn/src/stream.rs): the WebTransport error-code
   translation to and from the HTTP/3 reserved wire space, the direct
   async API of SendStream and RecvStream, and the generic-capability
   poll bindings built on top of them. -/

/-- Modelled from the spec: the error-code translator lives in the
webtransport-proto crate, which is not under src/. This is the first wire
code of the HTTP/3-reserved WebTransport error sub-space. -/
def WT_CODE_FIRST : Nat := 0x52e4a40fa8db

/-- Modelled from the spec: the last wire code of the reserved sub-space,
namely WT_CODE_FIRST plus the largest u32 plus the gap-skip steps. -/
def WT_CODE_LAST : Nat := 0x52e5ac983162

/-- Modelled from the spec: error_to_http3 (to_wire) of webtransport-proto,
absent from src/. A closed-form map per the HTTP/3 error-space convention:
the reserved-range offset plus an integer-division-based gap-skip over the
GREASE codepoints, one extra step for every 0x1e application codes. -/
def error_to_http3 (err : Nat) : Nat :=
  WT_CODE_FIRST + err + err / 0x1e

/-- Modelled from the spec: error_from_http3 (from_wire) of
webtransport-proto, absent from src/. It returns some application code
exactly when the wire code lies in the reserved sub-space and is not a
GREASE codepoint (w - 0x21 divisible by 0x1f), undoing the offset and the
gap-skip; it returns none otherwise. -/
def error_from_http3 (err : Nat) : Option Nat :=
  if err < WT_CODE_FIRST then none
  else if WT_CODE_LAST < err then none
  else if (err - 0x21) % 0x1f = 0 then none
  else some ((err - WT_CODE_FIRST) - (err - WT_CODE_FIRST) / 0x1f)

/-- Decoding inverts encoding on every 32-bit application code. -/
theorem from_to_eq (c : Nat) (h : c < 2 ^ 32) :
    error_from_http3 (error_to_http3 c) = some c := by
  unfold error_from_http3 error_to_http3 WT_CODE_FIRST WT_CODE_LAST
  split
  · omega
  · split
    · omega
    · split
      · omega
      · simp only [Option.some.injEq]
        omega

/-- Characterisation of decoding success: the wire codes that decode are
exactly the encodings of 32-bit application codes. -/
theorem from_some_iff (w c : Nat) :
    error_from_http3 w = some c ↔ c < 2 ^ 32 ∧ error_to_http3 c = w := by
  unfold error_from_http3 error_to_http3 WT_CODE_FIRST WT_CODE_LAST
  constructor
  · intro h
    split at h
    · exact absurd h (by simp)
    · split at h
      · exact absurd h (by simp)
      · split at h
        · exact absurd h (by simp)
        · simp only [Option.some.injEq] at h
          omega
  · intro h
    obtain ⟨h1, h2⟩ := h
    split
    · omega
    · split
      · omega
      · split
        · omega
        · simp only [Option.some.injEq]
          omega

/-- C1: for every 32-bit application error code c, decoding the encoded wire
code returns exactly that code: from_wire (to_wire c) = some c, with to_wire
the error_to_http3 translation used by reset and stop and from_wire the
error_from_http3 translation used by stopped. -/
theorem C1_roundtrip (c : Nat) (h : c < 2 ^ 32) :
    error_from_http3 (error_to_http3 c) = some c :=
  from_to_eq c h

/-- Witness for C1 at the concrete application code 42. -/
theorem C1_roundtrip_witness :
    42 < 2 ^ 32 ∧ error_from_http3 (error_to_http3 42) = some 42 :=
  ⟨by norm_num, C1_roundtrip 42 (by norm_num)⟩

/-- The result of a single poll of an async operation. -/
inductive Poll (α : Type) where
  | ready (a : α)
  | pending

/-- Modelled from the spec: the unknown-stream error of the underlying engine,
raised when the stream handle is no longer controllable locally. The engine
(quinn) is an outside collaborator wrapped as a black box. -/
inductive UnknownStream where
  | unknownStream

/-- Modelled from the spec: the StreamClosed taxonomy kind, defined in the
error module of the crate, which is absent from src/. It wraps the
engine unknown-stream condition for reset and priority operations. -/
inductive StreamClosed where
  | wrap (e : UnknownStream)

/-- Modelled from the spec: the engine failure while awaiting a stop-sending
notification: a connection-level failure. -/
inductive QuinnStoppedError where
  | connectionLost (reason : Nat)

/-- Modelled from the spec: the StoppedError taxonomy kind, defined in the
error module of the crate, which is absent from src/. It wraps the engine stopped
failure; connection-level only, no code carried. -/
inductive StoppedError where
  | wrap (e : QuinnStoppedError)

/-- Modelled from the spec: the ReadError taxonomy kind: stream reset by the
peer with an optional translated application code, a connection-level
failure, or an unknown-stream condition. -/
inductive ReadError where
  | reset (appCode : Option Nat)
  | connectionLost (reason : Nat)
  | unknownStream

/-- Modelled from the spec: the WriteError taxonomy kind: peer stop-sending
with an optional translated application code, locally closed stream, a
connection-level failure, or an unknown-stream condition. -/
inductive WriteError where
  | stopped (appCode : Option Nat)
  | streamClosed
  | connectionLost (reason : Nat)
  | unknownStream

/-- quinn VarInt try_from: succeeds exactly when the value fits the 62-bit
QUIC variable-length-integer space. The source unwraps this result, so a
none here models a panic. -/
def varIntTryFrom (n : Nat) : Option Nat :=
  if n < 2 ^ 62 then some n else none

/-- SendStream.reset, stream.rs lines 27-31: translate the u32 code with
error_to_http3, convert it to a VarInt and unwrap (a none result models the
panic), then issue the engine reset and wrap its error as StreamClosed. The
engine reset primitive is an oracle indexed by the wire code. -/
def SendStream.reset (engineReset : Nat → Except UnknownStream Unit)
    (code : Nat) : Option (Except StreamClosed Unit) :=
  (varIntTryFrom (error_to_http3 code)).map fun wire =>
    (engineReset wire).mapError StreamClosed.wrap

/-- SendStream.stopped, stream.rs lines 35-38: propagate an engine failure
wrapped as StoppedError, otherwise translate the delivered wire code with
error_from_http3. The awaited engine outcome is the argument. -/
def SendStream.stopped (engineOutcome : Except QuinnStoppedError Nat) :
    Except StoppedError (Option Nat) :=
  match engineOutcome with
  | .error e => .error (.wrap e)
  | .ok wire => .ok (error_from_http3 wire)

/-- SendStream.set_priority, stream.rs lines 75-77: delegate to the engine
and wrap its error as StreamClosed. -/
def SendStream.set_priority (engineResp : Except UnknownStream Unit) :
    Except StreamClosed Unit :=
  engineResp.mapError StreamClosed.wrap

/-- RecvStream.stop, stream.rs lines 143-147: translate the u32 code with
error_to_http3, convert it to a VarInt and unwrap (a none result models the
panic), then issue the engine stop. The engine error is returned raw, with
no wrapping. -/
def RecvStream.stop (engineStop : Nat → Except UnknownStream Unit)
    (code : Nat) : Option (Except UnknownStream Unit) :=
  (varIntTryFrom (error_to_http3 code)).map fun wire => engineStop wire

/-- webtransport_generic reset, stream.rs lines 122-124: invoke the direct
SendStream.reset and discard the outcome with ok(); the return is unit. A
none result models the panic inside the direct call. -/
def genericSend.reset (engineReset : Nat → Except UnknownStream Unit)
    (code : Nat) : Option Unit :=
  (SendStream.reset engineReset code).map fun r =>
    let _ := r.toOption
    ()

/-- webtransport_generic set_priority, stream.rs lines 126-128: invoke the
direct SendStream.set_priority and discard the outcome with ok(). -/
def genericSend.set_priority (engineResp : Except UnknownStream Unit) :
    Unit :=
  let _ := (SendStream.set_priority engineResp).toOption
  ()

/-- webtransport_generic stop, stream.rs lines 224-226: invoke the direct
RecvStream.stop and discard the outcome with ok(); the return is unit. A
none result models the panic inside the direct call. -/
def genericRecv.stop (engineStop : Nat → Except UnknownStream Unit)
    (code : Nat) : Option Unit :=
  (RecvStream.stop engineStop code).map fun r =>
    let _ := r.toOption
    ()

/-- C2: for every u32 application code the translated wire code lies in the
reserved HTTP/3 sub-space, inside the 62-bit QUIC varint space, so the
VarInt conversion unwrapped in SendStream.reset and RecvStream.stop never
panics: both return some result for every engine oracle. -/
theorem C2_wire_in_varint_space (c : Nat) (h : c < 2 ^ 32)
    (engineReset engineStop : Nat → Except UnknownStream Unit) :
    WT_CODE_FIRST ≤ error_to_http3 c ∧ error_to_http3 c ≤ WT_CODE_LAST ∧
    error_to_http3 c < 2 ^ 62 ∧
    (SendStream.reset engineReset c).isSome ∧
    (RecvStream.stop engineStop c).isSome := by
  have hb : error_to_http3 c < 2 ^ 62 := by
    unfold error_to_http3 WT_CODE_FIRST
    omega
  refine ⟨?_, ?_, hb, ?_, ?_⟩
  · unfold error_to_http3 WT_CODE_FIRST
    omega
  · unfold error_to_http3 WT_CODE_FIRST WT_CODE_LAST
    omega
  · rw [SendStream.reset, varIntTryFrom, if_pos hb]
    rfl
  · rw [RecvStream.stop, varIntTryFrom, if_pos hb]
    rfl

/-- Witness for C2 at code 7 with an engine that accepts the call. -/
theorem C2_wire_in_varint_space_witness :
    WT_CODE_FIRST ≤ error_to_http3 7 ∧ error_to_http3 7 ≤ WT_CODE_LAST ∧
    error_to_http3 7 < 2 ^ 62 ∧
    (SendStream.reset (fun _ => .ok ()) 7).isSome ∧
    (RecvStream.stop (fun _ => .ok ()) 7).isSome :=
  C2_wire_in_varint_space 7 (by norm_num) (fun _ => .ok ()) (fun _ => .ok ())

/-- C4: SendStream.stopped translates the delivered wire code: it returns
some c exactly when the wire code is the encoding of the u32 c (the image of
error_to_http3), it returns the error_from_http3 translation in general so a
wire code outside the mapped space yields none (no fabricated code), and it
fails with StoppedError exactly on an engine connection-level failure. -/
theorem C4_stopped_translation :
    (∀ w c, SendStream.stopped (.ok w) = .ok (some c) ↔
      c < 2 ^ 32 ∧ error_to_http3 c = w) ∧
    (∀ w, SendStream.stopped (.ok w) = .ok (error_from_http3 w)) ∧
    (∀ e, SendStream.stopped (.error e) = .error (.wrap e)) := by
  refine ⟨?_, fun w => rfl, fun e => rfl⟩
  intro w c
  show Except.ok (error_from_http3 w) = .ok (some c) ↔ _
  rw [Except.ok.injEq]
  exact from_some_iff w c

/-- Witness for C4: stopped on the wire encoding of 99 returns some 99. -/
theorem C4_stopped_translation_witness :
    SendStream.stopped (.ok (error_to_http3 99)) = .ok (some 99) :=
  (C4_stopped_translation.1 (error_to_http3 99) 99).mpr ⟨by norm_num, rfl⟩

/-- C5: at the generic-capability interface, reset, stop and set_priority
invoke the corresponding direct operation (the engine oracle is called at
the error_to_http3-translated wire code) and silently discard any failure:
for every engine outcome the returned value is unit, so no error value can
escape to the caller. -/
theorem C5_fire_and_forget
    (engineReset engineStop : Nat → Except UnknownStream Unit)
    (engineResp : Except UnknownStream Unit) (c : Nat) (h : c < 2 ^ 32) :
    genericSend.reset engineReset c = some () ∧
    genericRecv.stop engineStop c = some () ∧
    genericSend.set_priority engineResp = () ∧
    SendStream.reset engineReset c =
      some ((engineReset (error_to_http3 c)).mapError StreamClosed.wrap) ∧
    RecvStream.stop engineStop c = some (engineStop (error_to_http3 c)) := by
  have hb : error_to_http3 c < 2 ^ 62 := by
    unfold error_to_http3 WT_CODE_FIRST
    omega
  have hr : SendStream.reset engineReset c =
      some ((engineReset (error_to_http3 c)).mapError StreamClosed.wrap) := by
    rw [SendStream.reset, varIntTryFrom, if_pos hb]
    rfl
  have hs : RecvStream.stop engineStop c =
      some (engineStop (error_to_http3 c)) := by
    rw [RecvStream.stop, varIntTryFrom, if_pos hb]
    rfl
  refine ⟨?_, ?_, rfl, hr, hs⟩
  · rw [genericSend.reset, hr]
    rfl
  · rw [genericRecv.stop, hs]
    rfl

/-- Witness for C5 at code 3 with an engine that rejects every call: the
failures are discarded and unit is returned. -/
theorem C5_fire_and_forget_witness :
    genericSend.reset (fun _ => .error .unknownStream) 3 = some () ∧
    genericRecv.stop (fun _ => .error .unknownStream) 3 = some () ∧
    genericSend.set_priority (.error .unknownStream) = () ∧
    SendStream.reset (fun _ => .error .unknownStream) 3 =
      some ((Except.error UnknownStream.unknownStream).mapError
        StreamClosed.wrap) ∧
    RecvStream.stop (fun _ => .error .unknownStream) 3 =
      some (.error .unknownStream) :=
  C5_fire_and_forget (fun _ => .error .unknownStream)
    (fun _ => .error .unknownStream) (.error .unknownStream) 3 (by norm_num)

/-- A Buf cursor from the bytes crate: the sequence of chunks not yet
consumed. chunk is the current contiguous slice and advance consumes from
the front. -/
structure Buf where
  chunks : List (List Nat)

/-- The current contiguous chunk of a Buf (empty when exhausted). -/
def Buf.chunk (b : Buf) : List Nat :=
  b.chunks.headD []

/-- All bytes remaining in a Buf, in order. -/
def Buf.bytes (b : Buf) : List Nat :=
  b.chunks.flatten

/-- The number of bytes remaining in a Buf. -/
def Buf.remaining (b : Buf) : Nat :=
  b.bytes.length

/-- Advance a chunk sequence by n bytes, consuming whole chunks as needed. -/
def advanceChunks : List (List Nat) → Nat → List (List Nat)
  | [], _ => []
  | c :: rest, n =>
    if n < c.length then c.drop n :: rest
    else advanceChunks rest (n - c.length)

/-- Buf advance: consume n bytes from the front of the cursor. -/
def Buf.advance (b : Buf) (n : Nat) : Buf :=
  ⟨advanceChunks b.chunks n⟩

/-- Advancing by n drops exactly the first n remaining bytes. -/
theorem advanceChunks_flatten (cs : List (List Nat)) (n : Nat)
    (h : n ≤ cs.flatten.length) :
    (advanceChunks cs n).flatten = cs.flatten.drop n := by
  induction cs generalizing n with
  | nil =>
    simp only [List.flatten_nil, List.length_nil, Nat.le_zero] at h
    simp [advanceChunks, h]
  | cons c rest ih =>
    simp only [List.flatten_cons, List.length_append] at h
    rw [advanceChunks]
    split
    · rw [List.flatten_cons, List.flatten_cons, List.drop_append_eq_append_drop,
        Nat.sub_eq_zero_of_le (by omega), List.drop_zero]
    · have hc : c.length ≤ n := by omega
      rw [ih (n - c.length) (by omega), List.flatten_cons,
        List.drop_append_eq_append_drop, List.drop_eq_nil_of_le hc,
        List.nil_append]

/-- The current chunk never exceeds the remaining bytes. -/
theorem chunk_length_le (b : Buf) : b.chunk.length ≤ b.remaining := by
  rw [Buf.chunk, Buf.remaining, Buf.bytes]
  cases b.chunks with
  | nil => simp
  | cons c rest => simp

/-- The advance-on-success step of poll_send, stream.rs lines 111-115: when
the poll result is Ready Ok size, advance the buffer cursor by size;
otherwise return the result with the buffer untouched. -/
def pollSendStep (res : Poll (Except WriteError Nat)) (b : Buf) :
    Poll (Except WriteError Nat) × Buf :=
  match res with
  | .ready (.ok size) => (.ready (.ok size), b.advance size)
  | r => (r, b)

/-- webtransport_generic poll_send, stream.rs lines 105-116: poll a single
write of the current chunk against the engine, then apply the
advance-on-success step. The single poll of the write future is the
engineWrite oracle applied to the chunk. -/
def poll_send (engineWrite : List Nat → Poll (Except WriteError Nat))
    (b : Buf) : Poll (Except WriteError Nat) × Buf :=
  pollSendStep (engineWrite b.chunk) b

/-- C6: when poll_send returns Ready Ok n, the buffer cursor has advanced by
exactly n: the remaining bytes are the drop of the first n and the
remaining count shrinks by n; and n does not exceed the current chunk,
under the engine write contract that the accepted size is at most the
length of the submitted slice. -/
theorem C6_poll_send_advances
    (engineWrite : List Nat → Poll (Except WriteError Nat)) (b : Buf)
    (n : Nat)
    (hcontract : ∀ buf k, engineWrite buf = .ready (.ok k) → k ≤ buf.length)
    (hready : (poll_send engineWrite b).1 = .ready (.ok n)) :
    n ≤ b.chunk.length ∧
    (poll_send engineWrite b).2.bytes = b.bytes.drop n ∧
    (poll_send engineWrite b).2.remaining + n = b.remaining := by
  rw [poll_send] at hready ⊢
  cases hE : engineWrite b.chunk with
  | pending =>
    rw [hE] at hready
    simp [pollSendStep] at hready
  | ready r =>
    cases r with
    | error e =>
      rw [hE] at hready
      simp [pollSendStep] at hready
    | ok k =>
      rw [hE] at hready
      simp only [pollSendStep, Poll.ready.injEq, Except.ok.injEq] at hready
      simp only [pollSendStep]
      subst hready
      have hc : k ≤ b.chunk.length := hcontract b.chunk k hE
      have hrem : k ≤ b.bytes.length := le_trans hc (chunk_length_le b)
      have hadv : (b.advance k).bytes = b.bytes.drop k := by
        rw [Buf.advance, Buf.bytes, Buf.bytes]
        exact advanceChunks_flatten b.chunks k hrem
      refine ⟨hc, hadv, ?_⟩
      rw [Buf.remaining, Buf.remaining, hadv, List.length_drop]
      omega

/-- Witness for C6: a two-chunk buffer and an engine accepting 2 bytes. -/
theorem C6_poll_send_advances_witness :
    2 ≤ (Buf.mk [[7, 8, 9], [4]]).chunk.length ∧
    (poll_send (fun buf => .ready (.ok (min 2 buf.length)))
        (Buf.mk [[7, 8, 9], [4]])).2.bytes =
      (Buf.mk [[7, 8, 9], [4]]).bytes.drop 2 ∧
    (poll_send (fun buf => .ready (.ok (min 2 buf.length)))
        (Buf.mk [[7, 8, 9], [4]])).2.remaining + 2 =
      (Buf.mk [[7, 8, 9], [4]]).remaining :=
  C6_poll_send_advances (fun buf => .ready (.ok (min 2 buf.length)))
    (Buf.mk [[7, 8, 9], [4]]) 2
    (fun buf k hk => by
      cases hk
      omega)
    rfl

/-- C9: when poll_send returns Pending or Ready Err, the caller buffer is
unchanged: the cursor advances only on the Ready Ok branch, so a failed or
not-ready send consumes no input bytes. -/
theorem C9_poll_send_no_consume
    (engineWrite : List Nat → Poll (Except WriteError Nat)) (b : Buf)
    (h : (poll_send engineWrite b).1 = .pending ∨
      ∃ e, (poll_send engineWrite b).1 = .ready (.error e)) :
    (poll_send engineWrite b).2 = b := by
  rw [poll_send] at h ⊢
  cases hE : engineWrite b.chunk with
  | pending => rfl
  | ready r =>
    cases r with
    | error e => rfl
    | ok k =>
      rw [hE] at h
      rcases h with h | ⟨e, h⟩
      · simp [pollSendStep] at h
      · simp [pollSendStep] at h

/-- Witness for C9: a pending engine leaves the buffer untouched. -/
theorem C9_poll_send_no_consume_witness :
    (poll_send (fun _ => .pending) (Buf.mk [[1, 2, 3]])).2 =
      Buf.mk [[1, 2, 3]] :=
  C9_poll_send_no_consume (fun _ => .pending) (Buf.mk [[1, 2, 3]])
    (Or.inl rfl)

/-- A BufMut cursor from the bytes crate: the bytes written so far and the
spare capacity still available. -/
structure BufMut where
  written : List Nat
  capacity : Nat

/-- The spare capacity of a BufMut. -/
def BufMut.remainingMut (b : BufMut) : Nat :=
  b.capacity

/-- BufMut put: append the bytes, consuming capacity. -/
def BufMut.put (b : BufMut) (bytes : List Nat) : BufMut :=
  ⟨b.written ++ bytes, b.capacity - bytes.length⟩

/-- The dispatch step of poll_recv, stream.rs lines 212-220: ready-propagate
a pending poll, append a delivered chunk to the caller buffer and return its
length, map engine end-of-stream to Ready Ok none and an engine failure to
Ready Err. -/
def pollRecvStep (res : Poll (Except ReadError (Option (List Nat))))
    (b : BufMut) : Poll (Except ReadError (Option Nat)) × BufMut :=
  match res with
  | .pending => (.pending, b)
  | .ready (.ok (some bytes)) => (.ready (.ok (some bytes.length)), b.put bytes)
  | .ready (.ok none) => (.ready (.ok none), b)
  | .ready (.error e) => (.ready (.error e), b)

/-- webtransport_generic poll_recv, stream.rs lines 204-221: poll a single
read_chunk of at most remainingMut bytes against the engine, then apply the
dispatch step. The single poll of the read_chunk future is the
engineReadChunk oracle applied to the requested size. -/
def poll_recv
    (engineReadChunk : Nat → Poll (Except ReadError (Option (List Nat))))
    (b : BufMut) : Poll (Except ReadError (Option Nat)) × BufMut :=
  pollRecvStep (engineReadChunk b.remainingMut) b

/-- C7: poll_recv with a delivered chunk returns Ready Ok (some n) having
appended exactly those n bytes to the caller buffer; engine end-of-stream
maps to the terminal Ready Ok none, which is distinct from the Pending
no-data-yet result; an engine read failure surfaces as Ready Err with the
buffer unchanged, and an engine pending leaves everything unchanged. -/
theorem C7_poll_recv_dispatch
    (engineReadChunk : Nat → Poll (Except ReadError (Option (List Nat))))
    (b : BufMut) :
    (∀ bytes, engineReadChunk b.remainingMut = .ready (.ok (some bytes)) →
      poll_recv engineReadChunk b =
        (.ready (.ok (some bytes.length)),
          ⟨b.written ++ bytes, b.capacity - bytes.length⟩)) ∧
    (engineReadChunk b.remainingMut = .ready (.ok none) →
      poll_recv engineReadChunk b = (.ready (.ok none), b)) ∧
    (engineReadChunk b.remainingMut = .pending →
      poll_recv engineReadChunk b = (.pending, b)) ∧
    (∀ e, engineReadChunk b.remainingMut = .ready (.error e) →
      poll_recv engineReadChunk b = (.ready (.error e), b)) ∧
    ((Poll.ready (Except.ok none) : Poll (Except ReadError (Option Nat))) ≠
      Poll.pending) := by
  refine ⟨?_, ?_, ?_, ?_, fun hc => Poll.noConfusion hc⟩
  · intro bytes hE
    rw [poll_recv, hE]
    rfl
  · intro hE
    rw [poll_recv, hE]
    rfl
  · intro hE
    rw [poll_recv, hE]
    rfl
  · intro e hE
    rw [poll_recv, hE]
    rfl

/-- Witness for C7: an engine delivering the chunk 5, 6 to a buffer that
already holds 1 and has capacity 10. -/
theorem C7_poll_recv_dispatch_witness :
    poll_recv (fun _ => .ready (.ok (some [5, 6]))) (BufMut.mk [1] 10) =
      (.ready (.ok (some 2)), BufMut.mk [1, 5, 6] 8) :=
  (C7_poll_recv_dispatch (fun _ => .ready (.ok (some [5, 6])))
    (BufMut.mk [1] 10)).1 [5, 6] rfl

/-- How the peer concluded its sending side: a clean finish or a reset
carrying a wire code. -/
inductive StreamEnd where
  | clean
  | resetWith (wire : Nat)

/-- Modelled from the spec: the ReadExactError taxonomy kind, defined in the
error module of the crate, which is absent from src/. It distinguishes the stream
ending early, carrying the count of bytes delivered, from the general
ReadError causes. -/
inductive ReadExactError where
  | finishedEarly (bytesRead : Nat)
  | readError (e : ReadError)

/-- RecvStream.read_exact, stream.rs lines 157-159, delegating to the engine
read_exact and wrapping its error. Modelled from the spec: the engine is an
outside collaborator and the error conversion module is absent from src/.
The peer delivers some bytes and then concludes; a request of n bytes
succeeds when n are available, fails as the short-read variant carrying the
delivered count when the stream cleanly ended early, and fails as a general
ReadError with the translated code when the peer reset. -/
def RecvStream.read_exact (delivered : List Nat) (ending : StreamEnd)
    (n : Nat) : Except ReadExactError (List Nat) :=
  if n ≤ delivered.length then .ok (delivered.take n)
  else
    match ending with
    | .clean => .error (.finishedEarly delivered.length)
    | .resetWith wire => .error (.readError (.reset (error_from_http3 wire)))

/-- C8: read_exact of n bytes against a stream that cleanly ends after
delivering fewer bytes fails with the short-read variant carrying the
delivered count, which is not the general ReadError wrapper variant. -/
theorem C8_read_exact_short (delivered : List Nat) (n : Nat)
    (h : delivered.length < n) :
    RecvStream.read_exact delivered .clean n =
      .error (.finishedEarly delivered.length) ∧
    ∀ e, ReadExactError.finishedEarly delivered.length ≠ .readError e := by
  constructor
  · rw [RecvStream.read_exact, if_neg (by omega)]
  · intro e hc
    exact ReadExactError.noConfusion hc

/-- Witness for C8: two delivered bytes against a request of five. -/
theorem C8_read_exact_short_witness :
    RecvStream.read_exact [9, 9] .clean 5 =
      .error (.finishedEarly 2) ∧
    ∀ e, ReadExactError.finishedEarly 2 ≠ .readError e :=
  C8_read_exact_short [9, 9] 5 (by norm_num)

/-- std io Error: an error kind with no WebTransport application-code
field. -/
structure IoError where
  kind : Nat

/-- tokio AsyncWrite poll_write for SendStream, stream.rs lines 85-91:
direct delegation of the poll outcome of the inner stream. -/
def asyncWritePollWrite (inner : Poll (Except IoError Nat)) :
    Poll (Except IoError Nat) :=
  inner

/-- tokio AsyncWrite poll_flush for SendStream, stream.rs lines 93-95:
direct delegation of the poll outcome of the inner stream. -/
def asyncWritePollFlush (inner : Poll (Except IoError Unit)) :
    Poll (Except IoError Unit) :=
  inner

/-- tokio AsyncWrite poll_shutdown for SendStream, stream.rs lines 97-99:
direct delegation of the poll outcome of the inner stream. -/
def asyncWritePollShutdown (inner : Poll (Except IoError Unit)) :
    Poll (Except IoError Unit) :=
  inner

/-- tokio AsyncRead poll_read for RecvStream, stream.rs lines 187-193:
direct delegation of the poll outcome of the inner stream. -/
def asyncReadPollRead (inner : Poll (Except IoError Unit)) :
    Poll (Except IoError Unit) :=
  inner

/-- C10: the byte-stream interface delegates each poll to the engine stream
unchanged: every outcome, in particular every io error, surfaces exactly as
the engine produced it, with no error-code translation applied, and the io
error type carries only an io kind and no application code. -/
theorem C10_io_delegation :
    (∀ r : Poll (Except IoError Nat), asyncWritePollWrite r = r) ∧
    (∀ r : Poll (Except IoError Unit), asyncWritePollFlush r = r) ∧
    (∀ r : Poll (Except IoError Unit), asyncWritePollShutdown r = r) ∧
    (∀ r : Poll (Except IoError Unit), asyncReadPollRead r = r) :=
  ⟨fun _ => rfl, fun _ => rfl, fun _ => rfl, fun _ => rfl⟩

/-- The closed taxonomy of wrapper error kinds, plus the raw engine error
type that appears in one signature, for classifying the error type of each
direct operation. -/
inductive ErrKind where
  | writeError
  | readError
  | readExactError
  | readToEndError
  | stoppedError
  | streamClosed
  | rawQuinnUnknownStream
  deriving DecidableEq

/-- The direct-API operations of SendStream and RecvStream in stream.rs. -/
inductive DirectOp where
  | sendWrite
  | sendWriteAll
  | sendWriteChunks
  | sendWriteChunk
  | sendWriteAllChunks
  | sendFinish
  | sendReset
  | sendStopped
  | sendSetPriority
  | sendPriority
  | recvStop
  | recvRead
  | recvReadExact
  | recvReadChunk
  | recvReadChunks
  | recvReadToEnd
  deriving DecidableEq

/-- The error type in the result signature of each direct operation,
transcribed
from stream.rs lines 27, 35, 43, 48, 53, 61, 66, 71, 75, 79, 143, 152, 157,
162, 174 and 179. -/
def errorTypeOf : DirectOp → ErrKind
  | .sendWrite => .writeError
  | .sendWriteAll => .writeError
  | .sendWriteChunks => .writeError
  | .sendWriteChunk => .writeError
  | .sendWriteAllChunks => .writeError
  | .sendFinish => .writeError
  | .sendReset => .streamClosed
  | .sendStopped => .stoppedError
  | .sendSetPriority => .streamClosed
  | .sendPriority => .streamClosed
  | .recvStop => .rawQuinnUnknownStream
  | .recvRead => .readError
  | .recvReadExact => .readExactError
  | .recvReadChunk => .readError
  | .recvReadChunks => .readError
  | .recvReadToEnd => .readToEndError

/-- The closed taxonomy of the error module: the six wrapper kinds. -/
def taxonomy : List ErrKind :=
  [.writeError, .readError, .readExactError, .readToEndError,
    .stoppedError, .streamClosed]

/-- C3 counterexample: RecvStream.stop, a direct-API operation, returns the
raw engine error quinn UnknownStream, which is not one of the six taxonomy
kinds, so not every direct-API failure is surfaced wrapped. -/
theorem C3_counterexample :
    errorTypeOf DirectOp.recvStop = ErrKind.rawQuinnUnknownStream ∧
    ErrKind.rawQuinnUnknownStream ∉ taxonomy := by
  constructor
  · rfl
  · decide

/-- C3 (amended): every direct-API operation of SendStream and RecvStream
except RecvStream.stop surfaces its failure as one of the closed taxonomy
kinds; RecvStream.stop alone exposes the raw engine UnknownStream type. -/
theorem C3_taxonomy_amended (op : DirectOp) (h : op ≠ DirectOp.recvStop) :
    errorTypeOf op ∈ taxonomy := by
  cases op <;> first
    | exact absurd rfl h
    | decide

/-- Witness for the amended C3 at the write operation. -/
theorem C3_taxonomy_amended_witness :
    errorTypeOf DirectOp.sendWrite ∈ taxonomy :=
  C3_taxonomy_amended DirectOp.sendWrite (by decide)
